import Mathlib

/-!
Shallow embedding of the `lego` repository in Lean 4.

The repository has two components:
* `Debug` (a generic debug-parameter binder over a `dat.GUI` panel),
  see the untyped source file with the class `Debug`;
* `Lego` (a scene composer), see `src/utils/lego/core/Lego.ts`.

JavaScript objects are modelled as association lists of fields living in a
heap indexed by references, so that object identity (the subject of the
cloning claims) is explicit.  JavaScript numbers are modelled as `Option ℚ`
(`none` playing the role of `NaN`, which arises when a non-numeric value is
multiplied by a number).
-/

namespace Lego

/-- A reference identifying a JavaScript object in the heap. -/
abbrev Ref := Nat

/-- A JavaScript value stored in a field: a number, or a reference to
another object (for instance a nested colour object). -/
inductive Value where
  | num (q : ℚ)
  | ref (r : Ref)
deriving DecidableEq, Repr

/-- A JavaScript object: an association list from field names to values.
Field names of a real object are pairwise distinct. -/
abbrev Obj := List (String × Value)

/-- Field lookup, as JavaScript property read `o[key]`. -/
def Obj.lookup (o : Obj) (key : String) : Option Value :=
  (o.find? (fun kv => kv.1 = key)).map (·.2)

/-- The list of field names of an object, in insertion order. -/
def Obj.keys (o : Obj) : List String := o.map (·.1)

/-- JavaScript property assignment `o[key] = v`: replaces the value of an
existing field, otherwise appends a new field. -/
def Obj.setField (o : Obj) (key : String) (v : Value) : Obj :=
  if o.any (fun kv => kv.1 = key) then
    o.map (fun kv => if kv.1 = key then (key, v) else kv)
  else
    o ++ [(key, v)]

/-- The heap: objects indexed by their reference.  Allocation appends. -/
abbrev Heap := List Obj

/-- Read the object a reference denotes (a dangling reference reads `[]`). -/
def Heap.obj (h : Heap) (r : Ref) : Obj := h.getD r []

/-- Mutate one field of the object a reference denotes. -/
def Heap.write (h : Heap) (r : Ref) (key : String) (v : Value) : Heap :=
  h.set r ((h.obj r).setField key v)

/-- Numeric coercion used by JavaScript multiplication: a number coerces to
itself, an object reference coerces to `NaN` (modelled as `none`). -/
def Value.toNum : Value → Option ℚ
  | .num q => some q
  | .ref _ => none

/-- `NaN`-propagating multiplication on JavaScript numbers. -/
def jsMul (a b : Option ℚ) : Option ℚ :=
  match a, b with
  | some x, some y => some (x * y)
  | _, _ => none

/-- `NaN`-propagating negation on JavaScript numbers. -/
def jsNeg (a : Option ℚ) : Option ℚ := a.map (fun x => -x)

/-- A control registered in a `dat.GUI` folder.  A slider keeps the target
object, the field name and the two range arguments passed at registration
time; a colour picker keeps the target object and the field name. -/
inductive Control where
  | slider (target : Ref) (key : String) (lo hi : Option ℚ)
  | colorPicker (target : Ref) (key : String)
deriving DecidableEq, Repr

/-- A named folder of the shared `dat.GUI` panel. -/
structure Folder where
  name : String
  controls : List Control
deriving DecidableEq, Repr

/-- The combined mutable state touched by the binder: the JavaScript heap
and the folders of the single process-wide panel, in creation order. -/
structure PanelState where
  heap : Heap
  gui : List Folder
deriving Repr

/-- The `Debug` binder instance: its only configuration is `multiple`. -/
structure Debug where
  multiple : ℚ
deriving DecidableEq, Repr

/-- `new Debug(multiple = 3)`: the single constructor option defaults to 3. -/
def Debug.new (multiple : ℚ := 3) : Debug := ⟨multiple⟩

/-- The control registered for one field of the cloned options object:
`key === "color"` yields `folder.addColor(options, key)`, any other key
yields `folder.add(options, key, -options[key] * multiple,
options[key] * multiple)`. -/
def Debug.controlFor (d : Debug) (cloneRef : Ref) (kv : String × Value) :
    Control :=
  if kv.1 = "color" then
    .colorPicker cloneRef kv.1
  else
    .slider cloneRef kv.1
      (jsMul (jsNeg kv.2.toNum) (some d.multiple))
      (jsMul kv.2.toNum (some d.multiple))

/-- `Debug.add(name, options)`: shallow-clones the options object
(`options = clone(options)` allocates a fresh object with the same field
list), creates a folder named `name`, registers one control per field of
the clone, and returns the clone.  Result: the clone's reference and the
updated state. -/
def Debug.add (d : Debug) (name : String) (optionsRef : Ref)
    (st : PanelState) : Ref × PanelState :=
  let original := st.heap.obj optionsRef
  let cloneRef : Ref := st.heap.length
  let heap := st.heap ++ [original]
  let folder : Folder := ⟨name, original.map (d.controlFor cloneRef)⟩
  (cloneRef, ⟨heap, st.gui ++ [folder]⟩)

/-- `Debug.addE` wrapped in `Except`, recording that the binder's source has
no throw statement: every call returns normally. -/
def Debug.addE (d : Debug) (name : String) (optionsRef : Ref)
    (st : PanelState) : Except String (Ref × PanelState) :=
  .ok (d.add name optionsRef st)

/-- Panel edit of one field of a panel-bound object: a `dat.GUI` control
mutates only the target object in the heap; the registered folders (and in
particular the range arguments stored in each slider) are left untouched. -/
def PanelState.editField (st : PanelState) (r : Ref) (key : String)
    (v : Value) : PanelState :=
  ⟨st.heap.write r key v, st.gui⟩

/-- The tag of a DOM element, distinguishing `div` from everything else. -/
inductive ElemTag where
  | div
  | other (s : String)
deriving DecidableEq, Repr

/-- A DOM element: its tag and the list of its appended children,
identified by strings. -/
structure Elem where
  tag : ElemTag
  children : List String
deriving DecidableEq, Repr

/-- `el.toString()` as used by the constructor's mount-element check. -/
def Elem.str (e : Elem) : String :=
  match e.tag with
  | .div => "[object HTMLDivElement]"
  | .other s => s

/-- The host environment as far as the constructor observes it: whether
WebGL is available. -/
structure Env where
  webglAvailable : Bool
deriving DecidableEq, Repr

/-- Modelled from the spec: the vendored WebGL utility's
`WEBGL.isWebGLAvailable()` (file `utils/WebGl.js`, absent from the
snapshot) reports whether the execution environment supports graphics
acceleration; modelled as a flag of the environment. -/
def WEBGL.isWebGLAvailable (env : Env) : Bool := env.webglAvailable

/-- Modelled from the spec: the vendored WebGL utility's
`WEBGL.getWebGLErrorMessage()` (file `utils/WebGl.js`, absent from the
snapshot) produces the warning element that `compatibilityCheck` appends
to the mount element; modelled as a child identified by a fixed string. -/
def WEBGL.getWebGLErrorMessage : String := "webgl-warning-element"

/-- `compatibilityCheck(el)`: returns `true` and leaves `el` alone when
WebGL is available; otherwise appends the warning element to `el` and
returns `false`. -/
def compatibilityCheck (env : Env) (el : Elem) : Bool × Elem :=
  if WEBGL.isWebGLAvailable env then (true, el)
  else (false, ⟨el.tag, el.children ++ [WEBGL.getWebGLErrorMessage]⟩)

/-- The constructor's mount-element error (source text, in Chinese:
"please pass in the document node element to mount"). -/
def errNoMountElement : String := "请传入需要被挂载的document节点元素"

/-- The constructor's WebGL error (source text, in Chinese: "this browser
does not support webgl"). -/
def errNoWebgl : String := "此浏览器不支持webgl"

/-- The `Lego` constructor up to its two guard clauses: `el` absent or with
the wrong `toString` aborts with the mount-element error; a failed
`compatibilityCheck` aborts with the WebGL error; otherwise construction
proceeds (the remainder delegates to the rendering library).  The second
component is the final state of the caller-supplied mount element. -/
def construct (env : Env) (el : Option Elem) :
    Except String Unit × Option Elem :=
  match el with
  | none => (.error errNoMountElement, none)
  | some e =>
    if e.str = "[object HTMLDivElement]" then
      match compatibilityCheck env e with
      | (true, e2) => (.ok (), some e2)
      | (false, e2) => (.error errNoWebgl, some e2)
    else
      (.error errNoMountElement, some e)

/-- Observable events of one tick of the `animate` callback. -/
inductive Event where
  | debugCall (i : Nat)
  | controlUpdate
  | render
  | scheduleNextFrame
deriving DecidableEq, Repr

/-- The four statements in the body of `animate`, in source order:
`this.debugList.forEach(f => f())`, `this.control.update()`,
`this.renderer.render(this.scene, this.camera)`,
`requestAnimationFrame(this.animate)`. -/
inductive AnimateStmt where
  | runDebugList
  | updateControl
  | renderScene
  | requestNextFrame
deriving DecidableEq, Repr

/-- The body of `animate` as the list of its statements in source order. -/
def animateBody : List AnimateStmt :=
  [.runDebugList, .updateControl, .renderScene, .requestNextFrame]

/-- The events one statement of `animate` emits, given that `debugList`
holds `debugCount` registered callbacks. -/
def stmtEvents (debugCount : Nat) : AnimateStmt → List Event
  | .runDebugList => (List.range debugCount).map Event.debugCall
  | .updateControl => [.controlUpdate]
  | .renderScene => [.render]
  | .requestNextFrame => [.scheduleNextFrame]

/-- The event trace of one tick of `animate`: the statements of the body
executed in order. -/
def animateTrace (debugCount : Nat) : List Event :=
  (animateBody.map (stmtEvents debugCount)).flatten

/-- Reading the freshly appended object of the heap. -/
theorem Heap.obj_append_fresh (h : Heap) (o : Obj) :
    (h ++ [o]).obj h.length = o := by
  simp [Heap.obj, List.getD]

/-- Reading a previously allocated object is unaffected by allocation. -/
theorem Heap.obj_append_old (h : Heap) (o : Obj) (r : Ref)
    (hr : r < h.length) : (h ++ [o]).obj r = h.obj r := by
  simp [Heap.obj, List.getD, List.getElem?_append_left hr]

/-- Writing a field of one object leaves every other object unchanged. -/
theorem Heap.obj_write_ne (h : Heap) (r r2 : Ref) (key : String)
    (v : Value) (hne : r ≠ r2) : (h.write r key v).obj r2 = h.obj r2 := by
  simp [Heap.write, Heap.obj, List.getD, List.getElem?_set_ne hne]

/-- Writing a field of an allocated object updates exactly that object. -/
theorem Heap.obj_write_self (h : Heap) (r : Ref) (key : String) (v : Value)
    (hr : r < h.length) :
    (h.write r key v).obj r = (h.obj r).setField key v := by
  simp [Heap.write, Heap.obj, List.getD, List.getElem?_set_self, hr]

/-- Unfolding of `Debug.add`: the clone reference, the heap and the gui of
the result, stated once for all subsequent proofs. -/
theorem Debug.add_eq (d : Debug) (name : String) (r : Ref)
    (st : PanelState) :
    d.add name r st =
      (st.heap.length,
        ⟨st.heap ++ [st.heap.obj r],
         st.gui ++ [⟨name, (st.heap.obj r).map
            (d.controlFor st.heap.length)⟩]⟩) := rfl

/-- C2.  `Debug.add` returns an object with a fresh identity, and
reassigning any field of the returned clone leaves every field of the
original options object unchanged. -/
theorem add_clone_fresh (d : Debug) (name : String) (r : Ref)
    (st : PanelState) (hr : r < st.heap.length) (key : String)
    (v : Value) :
    (d.add name r st).1 ≠ r ∧
    ((d.add name r st).2.heap.write (d.add name r st).1 key v).obj r
      = st.heap.obj r := by
  rw [Debug.add_eq]
  refine ⟨Nat.ne_of_gt hr, ?_⟩
  rw [Heap.obj_write_ne _ _ _ _ _ (Nat.ne_of_gt hr),
    Heap.obj_append_old _ _ _ hr]

/-- Witness for C2 at a concrete state: one allocated object with a single
numeric field, cloned and then edited. -/
theorem add_clone_fresh_witness :
    (0 : Ref) < (⟨[[("intensity", .num 2)]], []⟩ : PanelState).heap.length ∧
    ((Debug.new.add "Light" 0 ⟨[[("intensity", .num 2)]], []⟩).1 ≠ 0 ∧
      (((Debug.new.add "Light" 0 ⟨[[("intensity", .num 2)]], []⟩).2.heap.write
          (Debug.new.add "Light" 0 ⟨[[("intensity", .num 2)]], []⟩).1
          "intensity" (.num 7)).obj 0
        = (⟨[[("intensity", .num 2)]], []⟩ : PanelState).heap.obj 0)) :=
  ⟨by decide,
   add_clone_fresh Debug.new "Light" 0 ⟨[[("intensity", .num 2)]], []⟩
     (by decide) "intensity" (.num 7)⟩

/-- C3.  For an options object without a `color` field, the clone returned
by `Debug.add` has the same keys and, at every key, the same value as the
input at the moment of the call. -/
theorem add_clone_preserves_fields (d : Debug) (name : String) (r : Ref)
    (st : PanelState)
    (hnc : ∀ kv ∈ st.heap.obj r, kv.1 ≠ "color") :
    ((d.add name r st).2.heap.obj (d.add name r st).1).keys
        = (st.heap.obj r).keys ∧
    ∀ key, ((d.add name r st).2.heap.obj (d.add name r st).1).lookup key
        = (st.heap.obj r).lookup key := by
  rw [Debug.add_eq]
  rw [Heap.obj_append_fresh]
  exact ⟨rfl, fun _ => rfl⟩

/-- Witness for C3 at a concrete state: an object with two numeric fields
and no `color` field. -/
theorem add_clone_preserves_fields_witness :
    (∀ kv ∈ (⟨[[("intensity", .num 2), ("height", .num 5)]], []⟩ :
        PanelState).heap.obj 0, kv.1 ≠ "color") ∧
    (((Debug.new.add "Light" 0
          ⟨[[("intensity", .num 2), ("height", .num 5)]], []⟩).2.heap.obj
        (Debug.new.add "Light" 0
          ⟨[[("intensity", .num 2), ("height", .num 5)]], []⟩).1).keys
      = ((⟨[[("intensity", .num 2), ("height", .num 5)]], []⟩ :
          PanelState).heap.obj 0).keys ∧
     ∀ key, ((Debug.new.add "Light" 0
          ⟨[[("intensity", .num 2), ("height", .num 5)]], []⟩).2.heap.obj
        (Debug.new.add "Light" 0
          ⟨[[("intensity", .num 2), ("height", .num 5)]], []⟩).1).lookup key
      = ((⟨[[("intensity", .num 2), ("height", .num 5)]], []⟩ :
          PanelState).heap.obj 0).lookup key) :=
  ⟨by decide,
   add_clone_preserves_fields Debug.new "Light" 0
     ⟨[[("intensity", .num 2), ("height", .num 5)]], []⟩ (by decide)⟩

/-- C4.  A field named exactly `color` is registered as a colour control
(which carries no numeric bounds), and a field with any other name is
registered as a numeric slider, regardless of the shape of its value. -/
theorem add_color_field_control (d : Debug) (name : String) (r : Ref)
    (st : PanelState) :
    ∃ f : Folder, (d.add name r st).2.gui = st.gui ++ [f] ∧
      f.name = name ∧
      f.controls = (st.heap.obj r).map (d.controlFor (d.add name r st).1) ∧
      ∀ kv ∈ st.heap.obj r,
        (kv.1 = "color" →
          d.controlFor (d.add name r st).1 kv
            = .colorPicker (d.add name r st).1 kv.1) ∧
        (kv.1 ≠ "color" →
          d.controlFor (d.add name r st).1 kv
            = .slider (d.add name r st).1 kv.1
                (jsMul (jsNeg kv.2.toNum) (some d.multiple))
                (jsMul kv.2.toNum (some d.multiple))) := by
  simp only [Debug.add_eq]
  refine ⟨_, rfl, rfl, rfl, fun kv _ => ⟨fun h => ?_, fun h => ?_⟩⟩
  · simp [Debug.controlFor, h]
  · simp [Debug.controlFor, h]

/-- C1.  For a numeric field of value `v` the registered slider stores the
range arguments `-v * multiple` and `v * multiple`, computed from the value
at binding time; for `0 < v` the passed minimum lies below the passed
maximum, for `v < 0` the passed minimum lies above the passed maximum; and
later panel edits of the clone never change the registered folders, so the
bounds are never re-evaluated. -/
theorem add_numeric_field_bounds (d : Debug) (name : String) (r : Ref)
    (st : PanelState) (hm : 0 < d.multiple) (key : String) (v : ℚ)
    (hkey : key ≠ "color")
    (hmem : (key, Value.num v) ∈ st.heap.obj r) :
    ∃ f : Folder, (d.add name r st).2.gui = st.gui ++ [f] ∧
      Control.slider (d.add name r st).1 key
          (some (-v * d.multiple)) (some (v * d.multiple)) ∈ f.controls ∧
      (0 < v → -v * d.multiple < v * d.multiple) ∧
      (v < 0 → v * d.multiple < -v * d.multiple) ∧
      ∀ key2 v2,
        ((d.add name r st).2.editField (d.add name r st).1 key2 v2).gui
          = (d.add name r st).2.gui := by
  simp only [Debug.add_eq]
  refine ⟨_, rfl, ?_, fun hv => ?_, fun hv => ?_, fun key2 v2 => rfl⟩
  · have hctl : d.controlFor st.heap.length (key, Value.num v)
        = Control.slider st.heap.length key
            (some (-v * d.multiple)) (some (v * d.multiple)) := by
      simp [Debug.controlFor, hkey, jsMul, jsNeg, Value.toNum]
    exact hctl ▸ List.mem_map_of_mem _ hmem
  · nlinarith [mul_pos hv hm]
  · nlinarith [mul_pos (neg_pos.mpr hv) hm]

/-- Witness for C1 at a concrete state: binder multiple 3, one numeric
field `intensity` of value `-2`, whose slider receives minimum `6` and
maximum `-6` (minimum above maximum). -/
theorem add_numeric_field_bounds_witness :
    (0 : ℚ) < (Debug.new).multiple ∧ "intensity" ≠ "color" ∧
    ("intensity", Value.num (-2)) ∈
      (⟨[[("intensity", .num (-2))]], []⟩ : PanelState).heap.obj 0 ∧
    ∃ f : Folder,
      (Debug.new.add "Light" 0
        ⟨[[("intensity", .num (-2))]], []⟩).2.gui = [] ++ [f] ∧
      Control.slider
          (Debug.new.add "Light" 0 ⟨[[("intensity", .num (-2))]], []⟩).1
          "intensity" (some 6) (some (-6)) ∈ f.controls ∧
      ((0 : ℚ) < -2 → (6 : ℚ) < -6) ∧ ((-2 : ℚ) < 0 → (-6 : ℚ) < 6) := by
  have hm : (0 : ℚ) < (Debug.new).multiple := by norm_num [Debug.new]
  have hk : "intensity" ≠ "color" := by decide
  have hmem : ("intensity", Value.num (-2)) ∈
      (⟨[[("intensity", .num (-2))]], []⟩ : PanelState).heap.obj 0 := by
    simp [Heap.obj]
  have h := add_numeric_field_bounds Debug.new "Light" 0
    ⟨[[("intensity", .num (-2))]], []⟩ hm "intensity" (-2) hk hmem
  obtain ⟨f, hgui, hmem2, h1, h2, -⟩ := h
  refine ⟨hm, hk, hmem, f, hgui, ?_, ?_, ?_⟩
  · have e1 : (-(-2 : ℚ)) * (Debug.new).multiple = 6 := by
      norm_num [Debug.new]
    have e2 : ((-2 : ℚ)) * (Debug.new).multiple = -6 := by
      norm_num [Debug.new]
    rwa [e1, e2] at hmem2
  · intro h0; exact absurd h0 (by norm_num)
  · intro _; norm_num

/-- C6.  Two calls of `add` with the same group name append two separate
folders carrying that name and return two distinct clones; mutating either
clone leaves the other unchanged. -/
theorem add_same_name_twice (d : Debug) (name : String) (r1 r2 : Ref)
    (st : PanelState) :
    (d.add name r2 (d.add name r1 st).2).1 ≠ (d.add name r1 st).1 ∧
    ((d.add name r2 (d.add name r1 st).2).2.gui
      = st.gui ++
        [⟨name, (st.heap.obj r1).map (d.controlFor (d.add name r1 st).1)⟩,
         ⟨name, ((d.add name r1 st).2.heap.obj r2).map
            (d.controlFor (d.add name r2 (d.add name r1 st).2).1)⟩]) ∧
    (∀ key v,
      ((d.add name r2 (d.add name r1 st).2).2.heap.write
          (d.add name r1 st).1 key v).obj
        (d.add name r2 (d.add name r1 st).2).1
      = (d.add name r2 (d.add name r1 st).2).2.heap.obj
          (d.add name r2 (d.add name r1 st).2).1) ∧
    (∀ key v,
      ((d.add name r2 (d.add name r1 st).2).2.heap.write
          (d.add name r2 (d.add name r1 st).2).1 key v).obj
        (d.add name r1 st).1
      = (d.add name r2 (d.add name r1 st).2).2.heap.obj
          (d.add name r1 st).1) := by
  refine ⟨?_, ?_, fun key v => ?_, fun key v => ?_⟩
  · simp [Debug.add_eq]
  · simp [Debug.add_eq]
  · refine Heap.obj_write_ne _ _ _ _ _ ?_
    simp [Debug.add_eq]
  · refine Heap.obj_write_ne _ _ _ _ _ ?_
    simp [Debug.add_eq]

/-- C8.  `Debug` is constructed from the single option `multiple`, which
defaults to 3, so with the default configuration a numeric field of value
`v` receives the slider range arguments `-v * 3` and `v * 3`. -/
theorem debug_default_multiple_bounds (name : String) (r : Ref)
    (st : PanelState) (key : String) (v : ℚ) (hkey : key ≠ "color")
    (hmem : (key, Value.num v) ∈ st.heap.obj r) :
    Debug.new.multiple = 3 ∧
    ∃ f : Folder, (Debug.new.add name r st).2.gui = st.gui ++ [f] ∧
      Control.slider (Debug.new.add name r st).1 key
        (some (-v * 3)) (some (v * 3)) ∈ f.controls := by
  refine ⟨rfl, ⟨_, rfl, ?_⟩⟩
  have hctl : Debug.new.controlFor (Debug.new.add name r st).1
      (key, Value.num v)
      = Control.slider (Debug.new.add name r st).1 key
          (some (-v * 3)) (some (v * 3)) := by
    simp [Debug.controlFor, hkey, jsMul, jsNeg, Value.toNum, Debug.new]
  exact hctl ▸ List.mem_map_of_mem _ hmem

/-- Witness for C8 at the spec's example: `intensity` of value 2 under the
default multiple 3 receives the slider range `-6 .. 6`. -/
theorem debug_default_multiple_bounds_witness :
    "intensity" ≠ "color" ∧
    ("intensity", Value.num 2) ∈
      (⟨[[("intensity", .num 2), ("color", .ref 1)], []], []⟩ :
        PanelState).heap.obj 0 ∧
    Debug.new.multiple = 3 ∧
    ∃ f : Folder,
      (Debug.new.add "Light" 0
        ⟨[[("intensity", .num 2), ("color", .ref 1)], []], []⟩).2.gui
        = [] ++ [f] ∧
      Control.slider
        (Debug.new.add "Light" 0
          ⟨[[("intensity", .num 2), ("color", .ref 1)], []], []⟩).1
        "intensity" (some (-6)) (some 6) ∈ f.controls := by
  have hk : "intensity" ≠ "color" := by decide
  have hmem : ("intensity", Value.num 2) ∈
      (⟨[[("intensity", .num 2), ("color", .ref 1)], []], []⟩ :
        PanelState).heap.obj 0 := by
    simp [Heap.obj]
  have h := debug_default_multiple_bounds "Light" 0
    ⟨[[("intensity", .num 2), ("color", .ref 1)], []], []⟩ "intensity" 2
    hk hmem
  have e1 : (-(2 : ℚ)) * 3 = -6 := by norm_num
  have e2 : ((2 : ℚ)) * 3 = 6 := by norm_num
  rw [e1, e2] at h
  exact ⟨hk, hmem, h.1, h.2⟩

/-- C9.  The copy made by `Debug.add` is shallow: an object-valued field of
the clone refers to the very same object as the input's field, and after
mutating that nested object through the clone, the mutation is observable
through the original options object. -/
theorem add_shallow_copy_aliasing (d : Debug) (name : String)
    (r r0 : Ref) (st : PanelState) (key : String)
    (hr : r < st.heap.length) (hr0 : r0 < st.heap.length) (hrr : r0 ≠ r)
    (hfield : (st.heap.obj r).lookup key = some (.ref r0)) :
    ((d.add name r st).2.heap.obj (d.add name r st).1).lookup key
        = some (.ref r0) ∧
    ∀ key2 v2,
      (((d.add name r st).2.heap.write r0 key2 v2).obj r).lookup key
          = some (.ref r0) ∧
      (((d.add name r st).2.heap.write r0 key2 v2).obj
          (d.add name r st).1).lookup key = some (.ref r0) ∧
      ((d.add name r st).2.heap.write r0 key2 v2).obj r0
          = (st.heap.obj r0).setField key2 v2 := by
  rw [Debug.add_eq]
  refine ⟨by rw [Heap.obj_append_fresh]; exact hfield,
    fun key2 v2 => ⟨?_, ?_, ?_⟩⟩
  · rw [Heap.obj_write_ne _ _ _ _ _ hrr, Heap.obj_append_old _ _ _ hr]
    exact hfield
  · rw [Heap.obj_write_ne _ _ _ _ _ (Nat.ne_of_lt hr0),
      Heap.obj_append_fresh]
    exact hfield
  · have hlt : r0 < (st.heap ++ [st.heap.obj r]).length := by
      rw [List.length_append]
      exact Nat.lt_of_lt_of_le hr0 (Nat.le_add_right _ _)
    rw [Heap.obj_write_self (st.heap ++ [st.heap.obj r]) r0 key2 v2 hlt,
      Heap.obj_append_old _ _ _ hr0]

/-- Witness for C9 at a concrete state: object 0 holds a `color` field
referring to object 1; the clone's `color` field aliases object 1, and a
write to object 1 is seen through both objects. -/
theorem add_shallow_copy_aliasing_witness :
    (0 : Ref) < 2 ∧ (1 : Ref) < 2 ∧ (1 : Ref) ≠ 0 ∧
    (((⟨[[("color", .ref 1)], [("r", .num 1)]], []⟩ :
        PanelState).heap.obj 0).lookup "color" = some (.ref 1)) ∧
    (((Debug.new.add "Material" 0
        ⟨[[("color", .ref 1)], [("r", .num 1)]], []⟩).2.heap.obj
        (Debug.new.add "Material" 0
          ⟨[[("color", .ref 1)], [("r", .num 1)]], []⟩).1).lookup "color"
        = some (.ref 1) ∧
      ((((Debug.new.add "Material" 0
          ⟨[[("color", .ref 1)], [("r", .num 1)]], []⟩).2.heap.write 1 "r"
          (.num 0)).obj 0).lookup "color" = some (.ref 1) ∧
        (((Debug.new.add "Material" 0
            ⟨[[("color", .ref 1)], [("r", .num 1)]], []⟩).2.heap.write 1 "r"
            (.num 0)).obj
          (Debug.new.add "Material" 0
            ⟨[[("color", .ref 1)], [("r", .num 1)]], []⟩).1).lookup "color"
          = some (.ref 1) ∧
        ((Debug.new.add "Material" 0
            ⟨[[("color", .ref 1)], [("r", .num 1)]], []⟩).2.heap.write 1 "r"
            (.num 0)).obj 1
          = (((⟨[[("color", .ref 1)], [("r", .num 1)]], []⟩ :
              PanelState).heap.obj 1).setField "r" (.num 0)))) := by
  have h1 : (0 : Ref) < 2 := by decide
  have h2 : (1 : Ref) < 2 := by decide
  have h3 : (1 : Ref) ≠ 0 := by decide
  have h4 : (((⟨[[("color", .ref 1)], [("r", .num 1)]], []⟩ :
      PanelState).heap.obj 0).lookup "color" = some (.ref 1)) := by
    simp [Heap.obj, Obj.lookup]
  have h := add_shallow_copy_aliasing Debug.new "Material" 0 1
    ⟨[[("color", .ref 1)], [("r", .num 1)]], []⟩ "color" h1 h2 h3 h4
  exact ⟨h1, h2, h3, h4, h.1, h.2 "r" (.num 0)⟩

/-- C10.  When WebGL is unavailable, the constructor's error path is not
side-effect free: `compatibilityCheck` appends the WebGL warning element
to the mount element before the constructor throws the WebGL error. -/
theorem construct_webgl_failure_mutates_el (env : Env) (e : Elem)
    (hdiv : e.str = "[object HTMLDivElement]")
    (hw : env.webglAvailable = false) :
    construct env (some e)
      = (.error errNoWebgl,
         some ⟨e.tag, e.children ++ [WEBGL.getWebGLErrorMessage]⟩) := by
  simp [construct, hdiv, compatibilityCheck, WEBGL.isWebGLAvailable, hw]

/-- Witness for C10 at a concrete environment without WebGL and a childless
`div` mount element. -/
theorem construct_webgl_failure_mutates_el_witness :
    (Elem.mk .div []).str = "[object HTMLDivElement]" ∧
    (Env.mk false).webglAvailable = false ∧
    construct (Env.mk false) (some (Elem.mk .div []))
      = (.error errNoWebgl,
         some ⟨.div, [] ++ [WEBGL.getWebGLErrorMessage]⟩) :=
  ⟨rfl, rfl,
   construct_webgl_failure_mutates_el (Env.mk false) (Elem.mk .div [])
     rfl rfl⟩

/-- C5.  The constructor raises exactly two synchronous errors: the
mount-element error exactly when the element is absent or not a `div`, the
WebGL error exactly when the element is a `div` but the environment lacks
WebGL support; both abort construction, and the debug binder has no error
path at all. -/
theorem construct_two_error_paths (env : Env) (el : Option Elem) :
    (∀ msg, (construct env el).1 = .error msg →
      msg = errNoMountElement ∨ msg = errNoWebgl) ∧
    ((construct env el).1 = .error errNoMountElement ↔
      el = none ∨ ∃ e, el = some e ∧ e.str ≠ "[object HTMLDivElement]") ∧
    ((construct env el).1 = .error errNoWebgl ↔
      ∃ e, el = some e ∧ e.str = "[object HTMLDivElement]" ∧
        env.webglAvailable = false) ∧
    ((construct env el).1 = .ok () ↔
      ∃ e, el = some e ∧ e.str = "[object HTMLDivElement]" ∧
        env.webglAvailable = true) ∧
    ∀ (d : Debug) (nm : String) (r : Ref) (st : PanelState),
      ∃ out, d.addE nm r st = .ok out := by
  have hne : errNoMountElement ≠ errNoWebgl := by decide
  cases el with
  | none =>
    have hc : (construct env none).1 = .error errNoMountElement := rfl
    rw [hc]
    refine ⟨fun msg h => Or.inl (Except.error.inj h).symm, ?_, ?_, ?_,
      fun d nm r st => ⟨_, rfl⟩⟩
    · simp
    · simp [hne]
    · simp
  | some e =>
    by_cases hs : e.str = "[object HTMLDivElement]"
    · cases hw : env.webglAvailable
      · have hc : (construct env (some e)).1 = .error errNoWebgl := by
          simp [construct, hs, compatibilityCheck, WEBGL.isWebGLAvailable,
            hw]
        rw [hc]
        refine ⟨fun msg h => Or.inr (Except.error.inj h).symm, ?_, ?_, ?_,
          fun d nm r st => ⟨_, rfl⟩⟩
        · simp [Ne.symm hne, hs]
        · simp [hs, hw]
        · simp [hs, hw]
      · have hc : (construct env (some e)).1 = .ok () := by
          simp [construct, hs, compatibilityCheck, WEBGL.isWebGLAvailable,
            hw]
        rw [hc]
        refine ⟨fun msg h => absurd h (by simp), ?_, ?_, ?_,
          fun d nm r st => ⟨_, rfl⟩⟩
        · simp [hs]
        · simp [hs, hw]
        · simp [hs, hw]
    · have hc : (construct env (some e)).1 = .error errNoMountElement := by
        simp [construct, hs]
      rw [hc]
      refine ⟨fun msg h => Or.inl (Except.error.inj h).symm, ?_, ?_, ?_,
        fun d nm r st => ⟨_, rfl⟩⟩
      · simp [hs]
      · simp [hs, hne]
      · simp [hs]

/-- C7.  One tick of `animate` invokes each registered debug callback, then
updates the orbit control, then issues exactly one render call, and ends by
rescheduling itself via the frame-scheduling primitive. -/
theorem animate_tick_order (n : Nat) :
    animateTrace n
      = (List.range n).map Event.debugCall
        ++ [Event.controlUpdate, Event.render, Event.scheduleNextFrame] ∧
    (animateTrace n).count Event.render = 1 ∧
    (animateTrace n).getLast? = some Event.scheduleNextFrame := by
  have h : animateTrace n
      = (List.range n).map Event.debugCall
        ++ [Event.controlUpdate, Event.render, Event.scheduleNextFrame] := by
    simp [animateTrace, animateBody, stmtEvents]
  refine ⟨h, ?_, ?_⟩
  · rw [h, List.count_append]
    have hz : ((List.range n).map Event.debugCall).count Event.render
        = 0 := by
      refine List.count_eq_zero.mpr fun hmem => ?_
      obtain ⟨i, -, hi⟩ := List.mem_map.mp hmem
      exact Event.noConfusion hi
    rw [hz]
    rfl
  · have hsplit : (List.range n).map Event.debugCall
        ++ [Event.controlUpdate, Event.render, Event.scheduleNextFrame]
        = ((List.range n).map Event.debugCall
            ++ [Event.controlUpdate, Event.render])
          ++ [Event.scheduleNextFrame] := by
      simp
    rw [h, hsplit]
    exact List.getLast?_concat _

/-- Witness for C4 at a concrete state: the `color` field of an options
object with two fields is registered as a colour control of the clone. -/
theorem add_color_field_control_witness :
    Debug.new.controlFor
        (Debug.new.add "Light" 0
          ⟨[[("intensity", .num 2), ("color", .ref 1)], []], []⟩).1
        ("color", Value.ref 1)
      = Control.colorPicker
          (Debug.new.add "Light" 0
            ⟨[[("intensity", .num 2), ("color", .ref 1)], []], []⟩).1
          "color" := by
  obtain ⟨f, -, -, -, hcl⟩ := add_color_field_control Debug.new "Light" 0
    ⟨[[("intensity", .num 2), ("color", .ref 1)], []], []⟩
  exact (hcl ("color", .ref 1) (by simp [Heap.obj])).1 rfl

/-- Witness for C5 at a concrete environment with WebGL and a `div` mount
element: construction succeeds, so neither error is raised. -/
theorem construct_two_error_paths_witness :
    (construct (Env.mk true) (some (Elem.mk .div []))).1 = .ok () :=
  (construct_two_error_paths (Env.mk true) (some (Elem.mk .div []))).2.2.2.1.mpr
    ⟨Elem.mk .div [], rfl, rfl, rfl⟩

/-- Witness for C6 at a concrete state: two `add` calls with the group
name `Light` return distinct clone references. -/
theorem add_same_name_twice_witness :
    (Debug.new.add "Light" 0
        (Debug.new.add "Light" 0
          ⟨[[("intensity", .num 2)]], []⟩).2).1
      ≠ (Debug.new.add "Light" 0 ⟨[[("intensity", .num 2)]], []⟩).1 :=
  (add_same_name_twice Debug.new "Light" 0 0
    ⟨[[("intensity", .num 2)]], []⟩).1

/-- Witness for C7 with two registered debug callbacks: the tick issues
exactly one render call. -/
theorem animate_tick_order_witness :
    (animateTrace 2).count Event.render = 1 :=
  (animate_tick_order 2).2.1

end Lego
